import Mathlib

/-
Shallow embedding of src/bandcamp-downloader.py.

Python dicts from the JSON payloads are modelled as association lists in
insertion order; dict.values() is the list of second components.  Python
exceptions are modelled with Except; the filesystem is an association list
from paths to byte lists.  Machine ints do not overflow in Python, so
counts are Nat/Int.
-/

namespace BandcampDL

/-- Association-list values, modelling Python dict.values() in insertion order. -/
def dictValues (d : List (String × String)) : List String := d.map Prod.snd

/-- Association-list lookup with propositional equality, modelling Python dict
access d[k] and membership k in d (first binding wins; JSON object keys are
unique so the distinction is irrelevant). -/
def dictLookup {α : Type} : List (String × α) → String → Option α
  | [], _ => none
  | (k, v) :: rest, key => if key = k then some v else dictLookup rest key

/-- Fields read from the profile page embedded JSON blob
(data-blob of the pagedata div), lines 147-154 of the source. -/
structure ProfileData where
  collection_count : Nat
  fan_id : Nat
  last_token : String
  redownload_urls : List (String × String)
deriving DecidableEq

/-- Fields read from the collection_items POST JSON response, line 129-130. -/
structure CollectionResponse where
  redownload_urls : List (String × String)
deriving DecidableEq

/-- The user_info dict built by get_download_links_for_user, lines 149-154. -/
structure UserInfo where
  collection_count : Nat
  user_id : Nat
  last_token : String
  download_urls : List String
deriving DecidableEq

/-- The JSON body of the continuation POST, lines 116-120.  The count field is
an Int because Python subtraction may go negative. -/
structure CollectionPostPayload where
  fan_id : Nat
  count : Int
  older_than_token : String
deriving DecidableEq

/-- Embedding of generate_collection_post_payload (lines 115-120). -/
def generate_collection_post_payload (u : UserInfo) : CollectionPostPayload :=
  { fan_id := u.user_id
  , count := (u.collection_count : Int) - (u.download_urls.length : Int)
  , older_than_token := u.last_token }

/-- Embedding of get_user_collection (lines 122-130): appends the values of the
redownload_urls map of the response to download_urls, with no deduplication
(line 130 is a plain list +=). -/
def get_user_collection (u : UserInfo) (resp : CollectionResponse) : UserInfo :=
  { u with download_urls := u.download_urls ++ dictValues resp.redownload_urls }

/-- Seeding of the user_info dict from the profile payload (lines 149-154);
line 154 spreads the dict values into a plain list, no deduplication. -/
def seed_user_info (d : ProfileData) : UserInfo :=
  { collection_count := d.collection_count
  , user_id := d.fan_id
  , last_token := d.last_token
  , download_urls := dictValues d.redownload_urls }

/-- Embedding of get_download_links_for_user (lines 132-157), instrumented with
the list of continuation POST payloads issued.  The profile argument is none
when the pagedata div is absent (lines 144-146, which return None); server
gives the JSON response of the collection_items endpoint for a payload.  The
source calls get_user_collection exactly once (line 156), so the trace is
built by that single call. -/
def get_download_links_traced (profile : Option ProfileData)
    (server : CollectionPostPayload → CollectionResponse) :
    Option (List String) × List CollectionPostPayload :=
  match profile with
  | none => (none, [])
  | some d =>
    let u := seed_user_info d
    let p := generate_collection_post_payload u
    let u2 := get_user_collection u (server p)
    (some u2.download_urls, [p])

/-- Result of get_download_links_for_user: the returned links (None when the
pagedata div is absent). -/
def get_download_links_for_user (profile : Option ProfileData)
    (server : CollectionPostPayload → CollectionResponse) : Option (List String) :=
  (get_download_links_traced profile server).1

/-- Exit-code logic of main (lines 98-113 and 234-235): links of None or of
zero length both take the branch at lines 100-102 and exit 2; otherwise main
falls through, returns None, and sys.exit(None) exits 0 (the download phase
does not change the exit code: the pooled path swallows worker exceptions). -/
def main_exit_code (profile : Option ProfileData)
    (server : CollectionPostPayload → CollectionResponse) : Nat :=
  match get_download_links_for_user profile server with
  | none => 2
  | some links => if links.isEmpty then 2 else 0

/-- Download descriptor for one format, data of download_items[0].downloads[fmt]. -/
structure DownloadDescriptor where
  url : String
deriving DecidableEq

/-- One entry of the download_items list of an album page payload. -/
structure DownloadItem where
  artist : String
  title : String
  downloads : List (String × DownloadDescriptor)
deriving DecidableEq

/-- Embedded JSON payload of an album download page (line 174). -/
structure AlbumPageData where
  download_items : List DownloadItem
deriving DecidableEq

/-- Python exceptions that escape the modelled functions. -/
inductive PyError where
  | indexError
  | keyError
  | httpError
deriving DecidableEq

deriving instance DecidableEq for Except

/-- Result of download_album up to the point where download_file is invoked:
either one of the two skip paths (lines 169-172 and 178-181, which return
normally) or the dispatch to download_file with the resolved direct url and
the artist directory (lines 183-184). -/
inductive AlbumStep where
  | skippedNoPagedata
  | skippedNoFormat
  | fetch (url : String) (artist : String)
deriving DecidableEq

/-- Message written at line 170 when the pagedata div is absent. -/
def errNoPagedata (url : String) : String :=
  "ERROR: No div with pagedata found for album at url [" ++ url ++ "]"

/-- Message written at line 179 when the format key is missing. -/
def warnNoFormat (album url fmt : String) : String :=
  "WARN: Album [" ++ album ++ "] at url [" ++ url ++
    "] does not have a download for format [" ++ fmt ++ "]."

/-- Embedding of download_album (lines 159-184), parameterised by the parsed
album page payload (none when the pagedata div is absent).  Line 175 indexes
download_items[0] unconditionally, so an empty list raises IndexError.  The
second component lists the messages written to the progress sink. -/
def download_album (fmt url : String) (page : Option AlbumPageData) :
    Except PyError (AlbumStep × List String) :=
  match page with
  | none => .ok (.skippedNoPagedata, [errNoPagedata url])
  | some data =>
    match data.download_items with
    | [] => .error .indexError
    | item :: _ =>
      match dictLookup item.downloads fmt with
      | none => .ok (.skippedNoFormat, [warnNoFormat item.title url fmt])
      | some dl => .ok (.fetch dl.url item.artist, [])

/-- HTTP response of the streaming GET in download_file: status code, the two
headers the function reads, and the body bytes.  content_length is the parsed
integer value of the content-length header when present. -/
structure Response where
  status : Nat
  content_disposition : Option String
  content_length : Option Nat
  body : List Nat
deriving DecidableEq

/-- The resolved options of the CONFIG global that download_file reads. -/
structure RunConfig where
  output_dir : String
  format : String
  force : Bool
deriving DecidableEq

/-- Filesystem model: association list from paths to file contents; the first
binding for a path is its current contents. -/
abbrev Fs := List (String × List Nat)

/-- Contents of the file at a path, none when no file exists there. -/
def fsGet : Fs → String → Option (List Nat)
  | [], _ => none
  | (q, b) :: rest, p => if p = q then some b else fsGet rest p

/-- Writing a file: the new binding shadows any older one. -/
def fsSet (fs : Fs) (p : String) (b : List Nat) : Fs := (p, b) :: fs

/-- Apostrophe character, U+0027. -/
def apos : Char := Char.ofNat 39

/-- Literal part of FILENAME_REGEX (line 21): the text filename*=UTF-8
followed by two apostrophes; the capture group (.*) takes the rest of the
line after the first occurrence. -/
def filenamePat : String := "filename*=UTF-8" ++ String.mk [apos, apos]

/-- Search for the first occurrence of pat in the char list; on a hit, return
the suffix after the occurrence (the greedy capture of the regex). -/
def searchCapture (pat : List Char) : List Char → Option (List Char)
  | [] => none
  | c :: rest =>
    if pat.isPrefixOf (c :: rest) then some ((c :: rest).drop pat.length)
    else searchCapture pat rest

/-- Embedding of FILENAME_REGEX.search(cd) followed by .group(1): everything
after the first filename*=UTF-8 apostrophe-pair marker, up to the end of the
line (a dot in the regex does not match a newline). -/
def regexSearchCapture (cd : String) : Option String :=
  match searchCapture filenamePat.data cd.data with
  | some rest => some (String.mk (rest.takeWhile (fun c => c ≠ Char.ofNat 10)))
  | none => none

/-- Value of a hexadecimal digit character. -/
def hexDigitVal (c : Char) : Option Nat :=
  if 48 ≤ c.toNat ∧ c.toNat ≤ 57 then some (c.toNat - 48)
  else if 65 ≤ c.toNat ∧ c.toNat ≤ 70 then some (c.toNat - 55)
  else if 97 ≤ c.toNat ∧ c.toNat ≤ 102 then some (c.toNat - 87)
  else none

/-- Percent-decoding on characters, modelling urllib.parse.unquote: a percent
sign followed by two hex digits decodes to that code point; malformed escapes
pass through unchanged.  This coincides with unquote on ASCII data. -/
def percentDecodeChars : List Char → List Char
  | [] => []
  | c :: a :: b :: rest2 =>
    if c = Char.ofNat 37 then
      match hexDigitVal a, hexDigitVal b with
      | some ha, some hb => Char.ofNat (16 * ha + hb) :: percentDecodeChars rest2
      | _, _ => c :: percentDecodeChars (a :: b :: rest2)
    else c :: percentDecodeChars (a :: b :: rest2)
  | c :: rest => c :: percentDecodeChars rest

/-- Embedding of urllib.parse.unquote on the captured group. -/
def unquote (s : String) : String := String.mk (percentDecodeChars s.data)

/-- Accumulating scan returning the characters after the last slash: cur holds
the group read since the last separator. -/
def lastSegmentChars (cur : List Char) : List Char → List Char
  | [] => cur
  | c :: rest =>
    if c = Char.ofNat 47 then lastSegmentChars [] rest
    else lastSegmentChars (cur ++ [c]) rest

/-- Embedding of url.split with slash, last element (line 195): split never
yields an empty list so the Python index -1 never fails; the last element is
the text after the last slash. -/
def urlLastSegment (url : String) : String := String.mk (lastSegmentChars [] url.data)

/-- Filename resolution of lines 194-195 given the content-disposition header
value: the percent-decoded capture when the regex matches, else the final
path segment of the url. -/
def resolved_filename (url cd : String) : String :=
  match regexSearchCapture cd with
  | some cap => unquote cap
  | none => urlLastSegment url

/-- Destination path of line 196: os.path.join of output dir, artist dir and
filename (components assumed relative, as produced by the program). -/
def file_path_of (cfg : RunConfig) (toDir url cd : String) : String :=
  cfg.output_dir ++ "/" ++ toDir ++ "/" ++ resolved_filename url cd

/-- Observable outcome of one download_file call that returned normally. -/
inductive FetchOutcome where
  | skipped
  | written
deriving DecidableEq

/-- Embedding of download_file (lines 186-216).  raise_for_status raises on a
4xx or 5xx status (line 192); reading an absent content-disposition header
raises KeyError (line 194); reading an absent content-length header raises
KeyError (line 202, reached only when the file exists and force is off).
Writing streams the whole body to the destination path. -/
def download_file (cfg : RunConfig) (url toDir : String) (resp : Response) (fs : Fs) :
    Except PyError (FetchOutcome × Fs) :=
  if 400 ≤ resp.status then .error .httpError
  else
    match resp.content_disposition with
    | none => .error .keyError
    | some cd =>
      let fp := file_path_of cfg toDir url cd
      match fsGet fs fp with
      | some existing =>
        if cfg.force then .ok (.written, fsSet fs fp resp.body)
        else
          match resp.content_length with
          | none => .error .keyError
          | some expected =>
            if expected = existing.length then .ok (.skipped, fs)
            else .ok (.written, fsSet fs fp resp.body)
      | none => .ok (.written, fsSet fs fp resp.body)

/-- One work item of the orchestrator: the album url, the parsed album page
payload and the response of the direct file GET that download_file would
receive for the resolved url. -/
structure AlbumJob where
  url : String
  page : Option AlbumPageData
  fileResp : Response
deriving DecidableEq

/-- Per-item pipeline of the orchestrator: download_album, then, when a fetch
is dispatched, download_file (lines 183-184).  Returns the messages emitted,
or the first uncaught exception of the item. -/
def process_album (cfg : RunConfig) (fs : Fs) (job : AlbumJob) :
    Except PyError (List String) :=
  match download_album cfg.format job.url job.page with
  | .error e => .error e
  | .ok (.fetch durl artist, ws) =>
    match download_file cfg durl artist job.fileResp fs with
    | .error e => .error e
    | .ok _ => .ok ws
  | .ok (_, ws) => .ok ws

/-- Sequential path of main (lines 109-111): a plain for loop with no
exception handling, so the first uncaught item exception stops the loop.
Returns the results of the items processed before the stop, and the escaped
exception when one occurred. -/
def run_sequential {α β : Type} (f : α → Except PyError β) :
    List α → List β × Option PyError
  | [] => ([], none)
  | x :: xs =>
    match f x with
    | .ok b =>
      let r := run_sequential f xs
      (b :: r.1, r.2)
    | .error e => ([], some e)

/-- Pooled path of main (lines 106-108): executor.map submits every item and
the returned iterator is never consumed, so every item runs and per-item
exceptions are swallowed inside their futures. -/
def run_pooled {α β : Type} (f : α → Except PyError β) (xs : List α) :
    List (Except PyError β) :=
  xs.map f

/-- Boolean success test for Except, used to state decidable hypotheses. -/
def exceptOk {ε α : Type} : Except ε α → Bool
  | .ok _ => true
  | .error _ => false

/-- One file-fetch work item for the idempotence analysis of download_file. -/
structure FetchJob where
  url : String
  toDir : String
  resp : Response
deriving DecidableEq

/-- Destination path of a fetch job (meaningful when the content-disposition
header is present, which GoodJob guarantees). -/
def jobPath (cfg : RunConfig) (j : FetchJob) : String :=
  file_path_of cfg j.toDir j.url (j.resp.content_disposition.getD "")

/-- Well-formedness of a fetch job: success status, content-disposition header
present, and a content-length header that matches the body actually served. -/
def GoodJob (j : FetchJob) : Prop :=
  j.resp.status < 400 ∧ j.resp.content_disposition.isSome = true ∧
    j.resp.content_length = some j.resp.body.length

instance (j : FetchJob) : Decidable (GoodJob j) := by
  unfold GoodJob; infer_instance

/-- Running download_file over a list of jobs, threading the filesystem; an
item whose fetch raises leaves the filesystem unchanged (the write never
starts) and the remaining items still run. -/
def run_fetch_list (cfg : RunConfig) :
    List FetchJob → Fs → List (Except PyError FetchOutcome) × Fs
  | [], fs => ([], fs)
  | j :: rest, fs =>
    match download_file cfg j.url j.toDir j.resp fs with
    | .ok (o, fs2) =>
      let r := run_fetch_list cfg rest fs2
      (.ok o :: r.1, r.2)
    | .error e =>
      let r := run_fetch_list cfg rest fs
      (.error e :: r.1, r.2)

/-- Profile payload declaring two purchases while embedding no urls. -/
def exProfileEmpty : ProfileData := ⟨2, 7, "tok", []⟩

/-- Continuation endpoint that returns no urls for any payload. -/
def exServerEmpty : CollectionPostPayload → CollectionResponse := fun _ => ⟨[]⟩

/-- Profile payload whose first page embeds the url u once. -/
def exProfileDup : ProfileData := ⟨2, 7, "tok", [("k1", "u")]⟩

/-- Continuation endpoint that re-sends the already-embedded url u. -/
def exServerDup : CollectionPostPayload → CollectionResponse := fun _ => ⟨[("k2", "u")]⟩

/-- Profile payload declaring zero purchases. -/
def exProfileZero : ProfileData := ⟨0, 7, "tok", []⟩

/-- Profile payload declaring one purchase that the first page already embeds. -/
def exProfileOne : ProfileData := ⟨1, 7, "tok", [("k1", "u")]⟩

/-- Resolved options with force off. -/
def exCfg : RunConfig := ⟨"out", "flac", false⟩

/-- Resolved options with force on. -/
def exCfgForce : RunConfig := ⟨"out", "flac", true⟩

/-- Download descriptor of the concrete album page. -/
def exDesc : DownloadDescriptor := ⟨"https://x/y/z.flac"⟩

/-- Download item offering the flac format. -/
def exItem : DownloadItem := ⟨"Art", "Tit", [("flac", exDesc)]⟩

/-- Album page payload with one download item offering flac. -/
def exPage : AlbumPageData := ⟨[exItem]⟩

/-- Download item offering no format at all. -/
def exItemNoFmt : DownloadItem := ⟨"Art", "Tit", []⟩

/-- Album page payload whose only item lacks every format. -/
def exPageNoFmt : AlbumPageData := ⟨[exItemNoFmt]⟩

/-- Album page payload with an empty download_items list. -/
def exPageEmptyItems : AlbumPageData := ⟨[]⟩

/-- Successful file response: header filename absent from the regex so the url
segment is used; content length matches the three body bytes. -/
def exRespOk : Response := ⟨200, some "attachment", some 3, [1, 2, 3]⟩

/-- File response with a 404 status, making raise_for_status throw. -/
def exResp404 : Response := ⟨404, some "attachment", some 3, [1, 2, 3]⟩

/-- File response lacking the content-disposition header. -/
def exRespNoCd : Response := ⟨200, none, some 3, [1]⟩

/-- Album job whose direct file GET returns 404. -/
def exBadJob : AlbumJob := ⟨"au", some exPage, exResp404⟩

/-- Album job whose page payload is absent, a per-item skip. -/
def exGoodJob : AlbumJob := ⟨"g", none, exRespOk⟩

/-- Fetch job for the idempotence witness. -/
def exFetchJob : FetchJob := ⟨"https://x/y/z.flac", "Art", exRespOk⟩

/-- Filesystem already holding three bytes at the destination path. -/
def exFsExisting : Fs := [("out/Art/z.flac", [9, 9, 9])]

/- ------------------------------------------------------------------ -/
/- Helper lemmas                                                      -/
/- ------------------------------------------------------------------ -/

theorem fsGet_fsSet_same (fs : Fs) (p : String) (b : List Nat) :
    fsGet (fsSet fs p b) p = some b := by
  simp [fsGet, fsSet]

theorem fsGet_fsSet_other (fs : Fs) (p q : String) (b : List Nat) (h : q ≠ p) :
    fsGet (fsSet fs p b) q = fsGet fs q := by
  simp [fsGet, fsSet, h]

theorem jobPath_eq (cfg : RunConfig) (j : FetchJob) (cd : String)
    (hcd : j.resp.content_disposition = some cd) :
    jobPath cfg j = file_path_of cfg j.toDir j.url cd := by
  simp [jobPath, hcd]

theorem download_album_cons (fmt url : String) (item : DownloadItem)
    (rest : List DownloadItem) :
    download_album fmt url (some (AlbumPageData.mk (item :: rest))) =
      match dictLookup item.downloads fmt with
      | none => .ok (.skippedNoFormat, [warnNoFormat item.title url fmt])
      | some dl => .ok (.fetch dl.url item.artist, []) := rfl

theorem download_file_skip (cfg : RunConfig) (url toDir : String) (resp : Response)
    (fs : Fs) (cd : String) (existing : List Nat)
    (hforce : cfg.force = false) (hst : resp.status < 400)
    (hcd : resp.content_disposition = some cd)
    (hex : fsGet fs (file_path_of cfg toDir url cd) = some existing)
    (hlen : resp.content_length = some existing.length) :
    download_file cfg url toDir resp fs = .ok (.skipped, fs) := by
  unfold download_file
  rw [if_neg (Nat.not_le.mpr hst), hcd]
  simp only
  cases hfs : fsGet fs (file_path_of cfg toDir url cd) with
  | none => exact Option.noConfusion (hfs ▸ hex)
  | some ex2 =>
    rw [hfs] at hex
    injection hex with hex2
    subst hex2
    rw [hforce, hlen]
    simp

theorem download_file_good (cfg : RunConfig) (j : FetchJob) (fs : Fs) (hg : GoodJob j) :
    ∃ o fs2, download_file cfg j.url j.toDir j.resp fs = .ok (o, fs2) ∧
      (∃ b, fsGet fs2 (jobPath cfg j) = some b ∧ b.length = j.resp.body.length) ∧
      ∀ q, q ≠ jobPath cfg j → fsGet fs2 q = fsGet fs q := by
  obtain ⟨hst, hcds, hcl⟩ := hg
  obtain ⟨cd, hcd⟩ := Option.isSome_iff_exists.mp hcds
  rw [jobPath_eq cfg j cd hcd]
  unfold download_file
  rw [if_neg (Nat.not_le.mpr hst), hcd]
  simp only
  cases hfs : fsGet fs (file_path_of cfg j.toDir j.url cd) with
  | none =>
    exact ⟨.written, _, rfl, ⟨j.resp.body, fsGet_fsSet_same fs _ _, rfl⟩,
      fun q hq => fsGet_fsSet_other fs _ q _ hq⟩
  | some existing =>
    cases hforce : cfg.force with
    | true =>
      refine ⟨.written, _, ?_, ⟨j.resp.body, fsGet_fsSet_same fs _ _, rfl⟩,
        fun q hq => fsGet_fsSet_other fs _ q _ hq⟩
      simp
    | false =>
      rw [hcl]
      by_cases hlen2 : j.resp.body.length = existing.length
      · refine ⟨.skipped, fs, ?_, ⟨existing, hfs, hlen2.symm⟩, fun q hq => rfl⟩
        simp [hlen2]
      · refine ⟨.written, _, ?_, ⟨j.resp.body, fsGet_fsSet_same fs _ _, rfl⟩,
          fun q hq => fsGet_fsSet_other fs _ q _ hq⟩
        simp [hlen2]

theorem run_fetch_list_preserves (cfg : RunConfig) (jobs : List FetchJob) (fs : Fs)
    (q : String) (hg : ∀ j ∈ jobs, GoodJob j) (hq : ∀ j ∈ jobs, q ≠ jobPath cfg j) :
    fsGet (run_fetch_list cfg jobs fs).2 q = fsGet fs q := by
  induction jobs generalizing fs with
  | nil => rfl
  | cons k rest ih =>
    obtain ⟨o, fs2, heq, _, hpres⟩ :=
      download_file_good cfg k fs (hg k (List.mem_cons_self k rest))
    unfold run_fetch_list
    rw [heq]
    simp only
    rw [ih fs2 (fun x hx => hg x (List.mem_cons_of_mem k hx))
      (fun x hx => hq x (List.mem_cons_of_mem k hx))]
    exact hpres q (hq k (List.mem_cons_self k rest))

theorem run_fetch_list_first_pass (cfg : RunConfig) (jobs : List FetchJob) (fs : Fs)
    (hg : ∀ j ∈ jobs, GoodJob j) (hnd : (jobs.map (jobPath cfg)).Nodup) :
    ∀ j ∈ jobs, ∃ b, fsGet (run_fetch_list cfg jobs fs).2 (jobPath cfg j) = some b ∧
      b.length = j.resp.body.length := by
  induction jobs generalizing fs with
  | nil => intro j hj; exact absurd hj (List.not_mem_nil j)
  | cons k rest ih =>
    rw [List.map_cons] at hnd
    obtain ⟨hknot, hndrest⟩ := List.nodup_cons.mp hnd
    obtain ⟨o, fs2, heq, ⟨b, hb, hblen⟩, hpres⟩ :=
      download_file_good cfg k fs (hg k (List.mem_cons_self k rest))
    intro j hj
    unfold run_fetch_list
    rw [heq]
    simp only
    rcases List.mem_cons.mp hj with hjk | hjr
    · subst hjk
      have hnot : ∀ j' ∈ rest, jobPath cfg j ≠ jobPath cfg j' := by
        intro j' hj' h
        exact hknot (h ▸ List.mem_map_of_mem (jobPath cfg) hj')
      rw [run_fetch_list_preserves cfg rest fs2 _
        (fun x hx => hg x (List.mem_cons_of_mem j hx)) hnot]
      exact ⟨b, hb, hblen⟩
    · exact ih fs2 (fun x hx => hg x (List.mem_cons_of_mem k hx)) hndrest j hjr

theorem run_fetch_list_all_skip (cfg : RunConfig) (jobs : List FetchJob) (fs : Fs)
    (hforce : cfg.force = false) (hg : ∀ j ∈ jobs, GoodJob j)
    (hsizes : ∀ j ∈ jobs, ∃ b, fsGet fs (jobPath cfg j) = some b ∧
      b.length = j.resp.body.length) :
    run_fetch_list cfg jobs fs = (jobs.map (fun _ => .ok .skipped), fs) := by
  induction jobs with
  | nil => rfl
  | cons k rest ih =>
    obtain ⟨hst, hcds, hcl⟩ := hg k (List.mem_cons_self k rest)
    obtain ⟨cd, hcd⟩ := Option.isSome_iff_exists.mp hcds
    obtain ⟨b, hb, hblen⟩ := hsizes k (List.mem_cons_self k rest)
    have hskip : download_file cfg k.url k.toDir k.resp fs = .ok (.skipped, fs) := by
      refine download_file_skip cfg k.url k.toDir k.resp fs cd b hforce hst hcd ?_ ?_
      · rw [← jobPath_eq cfg k cd hcd]; exact hb
      · rw [hcl, hblen]
    unfold run_fetch_list
    rw [hskip]
    simp only
    rw [ih (fun x hx => hg x (List.mem_cons_of_mem k hx))
      (fun x hx => hsizes x (List.mem_cons_of_mem k hx))]
    rfl

/- ------------------------------------------------------------------ -/
/- Claim theorems                                                     -/
/- ------------------------------------------------------------------ -/

/-- C1 (counterexample): with a profile declaring two purchases, no embedded
urls and a continuation response carrying no urls, enumeration returns
normally with zero urls, not two, and only one continuation request was
issued even though the collected count never reached the declared total. -/
theorem enumerator_not_reaching_total_counterexample :
    get_download_links_for_user (some exProfileEmpty) exServerEmpty = some [] ∧
    exProfileEmpty.collection_count = 2 ∧
    (get_download_links_traced (some exProfileEmpty) exServerEmpty).2.length = 1 := by
  decide

/-- C1 (amended): after seeding from the profile payload the enumerator issues
exactly one continuation POST request, unconditionally, with no loop guarded
by the collected count; the returned sequence is the initially embedded urls
followed by the urls of that single response, so its length equals the
declared total only when that single response supplies exactly the remaining
urls. -/
theorem enumerator_single_continuation_request :
    ∀ (d : ProfileData) (server : CollectionPostPayload → CollectionResponse),
    (get_download_links_traced (some d) server).2.length = 1 ∧
    get_download_links_for_user (some d) server =
      some (dictValues d.redownload_urls ++
        dictValues (server (generate_collection_post_payload (seed_user_info d))).redownload_urls) := by
  intro d server
  exact ⟨rfl, rfl⟩

/-- C2 (counterexample): when the continuation response re-sends a url already
embedded in the first page, the returned collection contains that url twice,
so the no-duplicates invariant fails. -/
theorem collected_urls_duplicates_counterexample :
    get_download_links_for_user (some exProfileDup) exServerDup = some ["u", "u"] ∧
    ¬ (["u", "u"] : List String).Nodup := by
  decide

/-- C2 (amended): merging a page of urls into the collection appends the
values of the url map without suppressing entries already present, for both
the first embedded page and the continuation response, so the collection can
contain duplicates. -/
theorem collection_merge_appends_without_dedup :
    (∀ (u : UserInfo) (resp : CollectionResponse),
      (get_user_collection u resp).download_urls =
        u.download_urls ++ dictValues resp.redownload_urls) ∧
    (∀ d : ProfileData, (seed_user_info d).download_urls = dictValues d.redownload_urls) := by
  exact ⟨fun _ _ => rfl, fun _ => rfl⟩

/-- C3 (counterexample): in the sequential path, an item whose direct file GET
returns 404 raises through the loop, so the following item, which alone would
complete normally, is never processed. -/
theorem sequential_halt_counterexample :
    process_album exCfg [] exGoodJob = .ok [errNoPagedata "g"] ∧
    run_sequential (process_album exCfg []) [exBadJob, exGoodJob] = ([], some .httpError) := by
  decide

/-- C3 (amended): skip outcomes never halt processing: when every item of the
batch returns normally the sequential loop processes them all with no escaped
exception, and the pooled path always processes every item because the
executor swallows per-item exceptions; but in the sequential path an uncaught
item exception halts processing of all remaining items. -/
theorem orchestrator_error_containment :
    ∀ (cfg : RunConfig) (fs : Fs) (jobs : List AlbumJob),
    (run_pooled (process_album cfg fs) jobs).length = jobs.length ∧
    ((∀ j ∈ jobs, exceptOk (process_album cfg fs j) = true) →
      (run_sequential (process_album cfg fs) jobs).1.length = jobs.length ∧
      (run_sequential (process_album cfg fs) jobs).2 = none) ∧
    (∀ (j : AlbumJob) (e : PyError), process_album cfg fs j = .error e →
      run_sequential (process_album cfg fs) (j :: jobs) = ([], some e)) := by
  intro cfg fs jobs
  refine ⟨List.length_map jobs _, ?_, ?_⟩
  · intro hok
    induction jobs with
    | nil => exact ⟨rfl, rfl⟩
    | cons j rest ih =>
      have hj := hok j (List.mem_cons_self j rest)
      have hrest := ih (fun x hx => hok x (List.mem_cons_of_mem j hx))
      cases he : process_album cfg fs j with
      | ok ws =>
        constructor
        · simp only [run_sequential, he]
          exact congrArg Nat.succ hrest.1
        · simp only [run_sequential, he]
          exact hrest.2
      | error e =>
        rw [he] at hj
        simp [exceptOk] at hj
  · intro j e he
    simp only [run_sequential, he]

/-- C3 (witness): concrete batch where the skip-outcome item is processed by
the sequential loop, and concrete halt after an item fetch error. -/
theorem orchestrator_error_containment_witness :
    (run_sequential (process_album exCfg []) [exGoodJob]).1.length = 1 ∧
    run_sequential (process_album exCfg []) [exBadJob, exGoodJob] =
      ([], some PyError.httpError) :=
  ⟨((orchestrator_error_containment exCfg [] [exGoodJob]).2.1 (by decide)).1,
   (orchestrator_error_containment exCfg [] [exGoodJob]).2.2 exBadJob .httpError (by decide)⟩

/-- C4 (counterexample): when the content-disposition header is absent the
fetch raises KeyError instead of falling back to the final url path segment:
the claim that the fetch does not fail on the missing header is false. -/
theorem missing_header_fetch_fails_counterexample :
    download_file exCfg "u" "a" exRespNoCd [] = .error .keyError := by
  decide

/-- C4 (amended): a content-disposition header carrying the UTF-8 filename
parameter yields that parameter percent-decoded, as in the spec example; a
header present without that parameter falls back to the final path segment of
the url; an absent header raises an uncaught KeyError instead of falling
back. -/
theorem filename_resolution :
    resolved_filename "https://x/y/z.flac"
        ("attachment; filename*=UTF-8" ++ String.mk [apos, apos] ++ "Artist%20-%20Track.flac") =
      "Artist - Track.flac" ∧
    (∀ url cd, regexSearchCapture cd = none →
      resolved_filename url cd = urlLastSegment url) ∧
    (∀ (cfg : RunConfig) (url toDir : String) (resp : Response) (fs : Fs),
      resp.status < 400 → resp.content_disposition = none →
      download_file cfg url toDir resp fs = .error .keyError) := by
  refine ⟨by decide, ?_, ?_⟩
  · intro url cd h
    simp [resolved_filename, h]
  · intro cfg url toDir resp fs hst hcd
    unfold download_file
    rw [if_neg (Nat.not_le.mpr hst), hcd]

/-- C4 (witness): the fallback and the KeyError branches at concrete inputs. -/
theorem filename_resolution_witness :
    resolved_filename "https://x/y/z.flac" "attachment" = urlLastSegment "https://x/y/z.flac" ∧
    download_file exCfg "u" "a" exRespNoCd [] = .error .keyError :=
  ⟨filename_resolution.2.1 "https://x/y/z.flac" "attachment" (by decide),
   filename_resolution.2.2 exCfg "u" "a" exRespNoCd [] (by decide) rfl⟩

/-- C6: with force on, a response that passes raise_for_status and carries a
content-disposition header always has its body written to the destination
path, whether or not a file exists there; the resulting state is the plain
write of the body, mentioning neither the existing file size nor the declared
content length, so no size comparison takes place. -/
theorem fetcher_force_always_writes :
    ∀ (cfg : RunConfig) (url toDir : String) (resp : Response) (fs : Fs) (cd : String),
    cfg.force = true → resp.status < 400 → resp.content_disposition = some cd →
    download_file cfg url toDir resp fs =
      .ok (.written, fsSet fs (file_path_of cfg toDir url cd) resp.body) := by
  intro cfg url toDir resp fs cd hforce hst hcd
  unfold download_file
  rw [if_neg (Nat.not_le.mpr hst), hcd]
  simp only
  cases hfs : fsGet fs (file_path_of cfg toDir url cd) with
  | none => rfl
  | some existing => rw [hforce]; rfl

/-- C6 (witness): with force on, the existing three-byte file at the
destination is overwritten with the response body, no size comparison. -/
theorem fetcher_force_always_writes_witness :
    download_file exCfgForce "https://x/y/z.flac" "Art" exRespOk exFsExisting =
      .ok (.written, fsSet exFsExisting
        (file_path_of exCfgForce "Art" "https://x/y/z.flac" "attachment") exRespOk.body) :=
  fetcher_force_always_writes exCfgForce "https://x/y/z.flac" "Art" exRespOk exFsExisting
    "attachment" rfl (by decide) rfl

/-- C7: an album page whose first download item lacks the configured format
yields the no-format skip with exactly one warning naming the album title,
the album url and the format; at the orchestrator level such an item
completes normally with only that warning, independent of the filesystem and
of its file response, and the pooled batch result decomposes item by item, so
the outcomes of all other albums are unaffected. -/
theorem format_filter_single_warning :
    (∀ (fmt url : String) (item : DownloadItem) (rest : List DownloadItem),
      dictLookup item.downloads fmt = none →
      download_album fmt url (some (AlbumPageData.mk (item :: rest))) =
        .ok (.skippedNoFormat, [warnNoFormat item.title url fmt])) ∧
    (∀ (cfg : RunConfig) (fs : Fs) (url : String) (fileResp : Response)
        (item : DownloadItem) (rest : List DownloadItem),
      dictLookup item.downloads cfg.format = none →
      process_album cfg fs
          (AlbumJob.mk url (some (AlbumPageData.mk (item :: rest))) fileResp) =
        .ok [warnNoFormat item.title url cfg.format]) ∧
    (∀ (cfg : RunConfig) (fs : Fs) (pre post : List AlbumJob) (j : AlbumJob),
      run_pooled (process_album cfg fs) (pre ++ j :: post) =
        run_pooled (process_album cfg fs) pre ++
          process_album cfg fs j :: run_pooled (process_album cfg fs) post) := by
  refine ⟨?_, ?_, ?_⟩
  · intro fmt url item rest hlk
    rw [download_album_cons, hlk]
  · intro cfg fs url fileResp item rest hlk
    simp only [process_album]
    rw [download_album_cons, hlk]
  · intro cfg fs pre post j
    simp [run_pooled]

/-- C7 (witness): the concrete album page offering no format yields the
no-format skip and its single warning, at both levels. -/
theorem format_filter_single_warning_witness :
    download_album "flac" "au" (some exPageNoFmt) =
      .ok (.skippedNoFormat, [warnNoFormat "Tit" "au" "flac"]) ∧
    process_album exCfg [] (AlbumJob.mk "au" (some exPageNoFmt) exRespOk) =
      .ok [warnNoFormat "Tit" "au" "flac"] :=
  ⟨format_filter_single_warning.1 "flac" "au" exItemNoFmt [] rfl,
   format_filter_single_warning.2.1 exCfg [] "au" exRespOk exItemNoFmt [] rfl⟩

/-- C8: the continuation POST body has exactly the three fields fan_id equal
to the numeric fan identifier, count equal to the declared total minus the
number of urls collected so far, and older_than_token equal to the current
token; and the single payload actually sent by the enumerator has those
fields computed from the seeded state. -/
theorem continuation_payload_exact_fields :
    (∀ u : UserInfo, generate_collection_post_payload u =
      ⟨u.user_id, (u.collection_count : Int) - (u.download_urls.length : Int), u.last_token⟩) ∧
    (∀ (d : ProfileData) (server : CollectionPostPayload → CollectionResponse),
      (get_download_links_traced (some d) server).2 =
        [⟨d.fan_id, (d.collection_count : Int) - ((dictValues d.redownload_urls).length : Int),
          d.last_token⟩]) := by
  exact ⟨fun _ => rfl, fun _ _ => rfl⟩

/-- C9 (counterexample): the payload-absent case and the zero-items case both
exit with status 2, so the two are not distinguishable by exit status. -/
theorem exit_code_not_distinct_counterexample :
    main_exit_code none exServerEmpty = 2 ∧
    main_exit_code (some exProfileZero) exServerEmpty = 2 := by
  decide

/-- C9 (amended): the run exits 2 when zero collection items were discovered,
and also exits 2 when the profile embedded payload is absent, the same
status; it exits 0 on success with at least one link. -/
theorem exit_code_values :
    ∀ (profile : Option ProfileData) (server : CollectionPostPayload → CollectionResponse),
    (profile = none → main_exit_code profile server = 2) ∧
    (∀ links, get_download_links_for_user profile server = some links →
      (links = [] → main_exit_code profile server = 2) ∧
      (links ≠ [] → main_exit_code profile server = 0)) := by
  intro profile server
  constructor
  · intro h
    subst h
    rfl
  · intro links h
    unfold main_exit_code
    rw [h]
    constructor
    · intro h2
      subst h2
      rfl
    · intro h2
      cases links with
      | nil => exact absurd rfl h2
      | cons a as => rfl

/-- C9 (witness): concrete absent-payload exit, zero-items exit, and success
exit. -/
theorem exit_code_values_witness :
    main_exit_code none exServerEmpty = 2 ∧
    main_exit_code (some exProfileZero) exServerEmpty = 2 ∧
    main_exit_code (some exProfileOne) exServerEmpty = 0 :=
  ⟨(exit_code_values none exServerEmpty).1 rfl,
   ((exit_code_values (some exProfileZero) exServerEmpty).2 [] (by decide)).1 rfl,
   ((exit_code_values (some exProfileOne) exServerEmpty).2 ["u"] (by decide)).2 (by decide)⟩

/-- C10: an album page payload that is present and parses but whose
download_items list is empty makes download_album raise IndexError, not a
skip; the payload-absent case returns the pagedata skip with its message, and
when the first item carries the configured format the result is the dispatch
to the file fetch, so skips arise only from the absent payload or the missing
format key. -/
theorem empty_download_items_index_error :
    (∀ fmt url : String,
      download_album fmt url (some (AlbumPageData.mk [])) = .error .indexError) ∧
    (∀ fmt url : String, download_album fmt url none =
      .ok (.skippedNoPagedata, [errNoPagedata url])) ∧
    (∀ (fmt url : String) (item : DownloadItem)
        (rest : List DownloadItem) (dl : DownloadDescriptor),
      dictLookup item.downloads fmt = some dl →
      download_album fmt url (some (AlbumPageData.mk (item :: rest))) =
        .ok (.fetch dl.url item.artist, [])) := by
  refine ⟨fun _ _ => rfl, fun _ _ => rfl, ?_⟩
  intro fmt url item rest dl hlk
  rw [download_album_cons, hlk]

/-- C10 (witness): the three branches at concrete album pages. -/
theorem empty_download_items_index_error_witness :
    download_album "flac" "au" (some exPageEmptyItems) = .error .indexError ∧
    download_album "flac" "au" none = .ok (.skippedNoPagedata, [errNoPagedata "au"]) ∧
    download_album "flac" "au" (some exPage) =
      .ok (.fetch "https://x/y/z.flac" "Art", []) :=
  ⟨empty_download_items_index_error.1 "flac" "au",
   empty_download_items_index_error.2.1 "flac" "au",
   empty_download_items_index_error.2.2 "flac" "au" exItem [] exDesc rfl⟩

/-- C5: a fetch whose destination path already holds a file of byte size
equal to the declared content length, with force off, returns the skipped
outcome with the filesystem unchanged; consequently, for a batch of
well-formed fetch jobs with pairwise distinct destination paths, running the
batch a second time over the filesystem produced by the first run skips every
file and leaves the filesystem unchanged. -/
theorem fetcher_skip_and_second_run_idempotence :
    (∀ (cfg : RunConfig) (url toDir : String) (resp : Response) (fs : Fs)
        (cd : String) (existing : List Nat),
      cfg.force = false → resp.status < 400 → resp.content_disposition = some cd →
      fsGet fs (file_path_of cfg toDir url cd) = some existing →
      resp.content_length = some existing.length →
      download_file cfg url toDir resp fs = .ok (.skipped, fs)) ∧
    (∀ (cfg : RunConfig) (jobs : List FetchJob) (fs : Fs),
      cfg.force = false → (∀ j ∈ jobs, GoodJob j) →
      (jobs.map (jobPath cfg)).Nodup →
      run_fetch_list cfg jobs (run_fetch_list cfg jobs fs).2 =
        (jobs.map (fun _ => .ok .skipped), (run_fetch_list cfg jobs fs).2)) := by
  constructor
  · intro cfg url toDir resp fs cd existing hforce hst hcd hex hlen
    exact download_file_skip cfg url toDir resp fs cd existing hforce hst hcd hex hlen
  · intro cfg jobs fs hforce hg hnd
    exact run_fetch_list_all_skip cfg jobs _ hforce hg
      (run_fetch_list_first_pass cfg jobs fs hg hnd)

/-- C5 (witness): the concrete matching-size skip, and the concrete second
run over the filesystem the first run produced, which skips its single job. -/
theorem fetcher_skip_and_second_run_idempotence_witness :
    download_file exCfg "https://x/y/z.flac" "Art" exRespOk exFsExisting =
      .ok (.skipped, exFsExisting) ∧
    run_fetch_list exCfg [exFetchJob] (run_fetch_list exCfg [exFetchJob] []).2 =
      ([.ok .skipped], (run_fetch_list exCfg [exFetchJob] []).2) :=
  ⟨fetcher_skip_and_second_run_idempotence.1 exCfg "https://x/y/z.flac" "Art" exRespOk
      exFsExisting "attachment" [9, 9, 9] rfl (by decide) rfl (by decide) rfl,
   fetcher_skip_and_second_run_idempotence.2 exCfg [exFetchJob] [] rfl
      (by decide) (by decide)⟩

end BandcampDL
